import Mathlib

/-!
Verification development for the dna-analysis repository's scoring core.

The Python sources `polygenic_risk.py`, `health_snps.py` and
`variant_annotator.py` are shallowly embedded below:

* Python `dict` values become association lists (`List (String × _)`)
  whose lookup is `dictLookup`; insertion order is preserved, matching
  CPython dict iteration order.
* Python `float` weights and scores are idealised as rationals (`ℚ`);
  the decimal literals of the source are exact in `ℚ`.
* Fallible code is embedded in `Except String`: the `IndexError` that
  `genotype[0]` raises on an empty string becomes an `Except.error`.
* `calculate_prs` returning `None` for an unknown trait becomes
  `Except.ok none`.
-/

set_option maxRecDepth 8000

/-- Lookup in an association list, the embedding of Python `d[k]` /
`k in d` on a `dict` represented as its insertion-ordered item list. -/
def dictLookup {β : Type} (k : String) : List (String × β) → Option β
  | [] => none
  | p :: rest => if p.1 = k then some p.2 else dictLookup k rest

/-- Embedding of `TraitCategory` from `polygenic_risk.py`. -/
inductive TraitCategory where
  | CARDIOVASCULAR
  | METABOLIC
  | NEUROLOGICAL
  | CANCER
  | AUTOIMMUNE
  deriving DecidableEq

/-- Embedding of the dataclass `PRSWeights` from `polygenic_risk.py`. -/
structure PRSWeights where
  trait_name : String
  trait_category : TraitCategory
  model_id : String
  variants : List (String × ℚ)
  ancestry : String
  citations : List String
  description : String
  deriving DecidableEq

/-- The `"type_2_diabetes"` entry of `PRS_MODELS` in `polygenic_risk.py`. -/
def type_2_diabetes_model : PRSWeights :=
  { trait_name := "Type 2 Diabetes"
    trait_category := TraitCategory.METABOLIC
    model_id := "PGS000004"
    variants := [("rs7903146", 0.12), ("rs1801282", -0.08), ("rs6785714", 0.06),
                 ("rs4312821", 0.05), ("rs13266634", 0.04)]
    ancestry := "European"
    citations := ["16882006", "22885925", "25231870"]
    description := "Genetic susceptibility to Type 2 Diabetes Mellitus" }

/-- The `"coronary_artery_disease"` entry of `PRS_MODELS`. -/
def coronary_artery_disease_model : PRSWeights :=
  { trait_name := "Coronary Artery Disease"
    trait_category := TraitCategory.CARDIOVASCULAR
    model_id := "PGS000018"
    variants := [("rs10757274", 0.18), ("rs1333049", 0.16), ("rs6922269", 0.12),
                 ("rs17465637", 0.10), ("rs599839", 0.08)]
    ancestry := "European"
    citations := ["18371930", "19762552", "23151290"]
    description := "Genetic risk of Coronary Artery Disease" }

/-- The `"alzheimers_disease"` entry of `PRS_MODELS`. -/
def alzheimers_disease_model : PRSWeights :=
  { trait_name := "Alzheimer\x27s Disease"
    trait_category := TraitCategory.NEUROLOGICAL
    model_id := "PGS000002"
    variants := [("rs429358", 0.45), ("rs7412", -0.15), ("rs3865444", 0.08),
                 ("rs11136000", 0.06), ("rs9271192", 0.05)]
    ancestry := "European"
    citations := ["16102006", "19668253", "22127048"]
    description := "Genetic susceptibility to late-onset Alzheimer\x27s Disease" }

/-- The `"obesity"` entry of `PRS_MODELS`. -/
def obesity_model : PRSWeights :=
  { trait_name := "Obesity Risk"
    trait_category := TraitCategory.METABOLIC
    model_id := "PGS000001"
    variants := [("rs9939609", 0.15), ("rs1421085", 0.14), ("rs6548238", 0.08),
                 ("rs11847697", 0.07), ("rs2007044", 0.06)]
    ancestry := "European"
    citations := ["17701901", "18391949", "23895483"]
    description := "Genetic predisposition to obesity" }

/-- The `"breast_cancer"` entry of `PRS_MODELS`. -/
def breast_cancer_model : PRSWeights :=
  { trait_name := "Breast Cancer Risk"
    trait_category := TraitCategory.CANCER
    model_id := "PGS000007"
    variants := [("rs889312", 0.08), ("rs13387042", 0.09), ("rs1219648", 0.10),
                 ("rs2046210", 0.07), ("rs3817116", 0.06)]
    ancestry := "European"
    citations := ["18227844", "20563307", "23001138"]
    description := "Genetic risk factors for breast cancer" }

/-- Embedding of the `PRS_MODELS` registry from `polygenic_risk.py`. -/
def PRS_MODELS : List (String × PRSWeights) :=
  [("type_2_diabetes", type_2_diabetes_model),
   ("coronary_artery_disease", coronary_artery_disease_model),
   ("alzheimers_disease", alzheimers_disease_model),
   ("obesity", obesity_model),
   ("breast_cancer", breast_cancer_model)]

/-- Does `needle` occur at the head of `hay`? Helper for the embedding of
the Python substring test `needle in hay`. -/
def listStartsWith : List Char → List Char → Bool
  | _, [] => true
  | [], _ :: _ => false
  | a :: as, b :: bs => a == b && listStartsWith as bs

/-- Does `needle` occur contiguously anywhere in `hay`? -/
def listHasSub : List Char → List Char → Bool
  | [], needle => needle.isEmpty
  | a :: as, needle => listStartsWith (a :: as) needle || listHasSub as needle

/-- Embedding of the Python substring test `needle in hay` on `str`. -/
def strContains (hay needle : String) : Bool :=
  listHasSub hay.data needle.data

/-- Embedding of `PolygenicriskCalculator._score_to_percentile`. -/
def score_to_percentile (score : ℚ) (trait : String) : ℚ :=
  if strContains trait "Coronary" then
    min 99 (max 1 (50 + score * 10))
  else if strContains trait "Alzheimer" then
    min 99 (max 1 (50 + score * 5))
  else
    min 99 (max 1 (50 + score * 8))

/-- Embedding of `PolygenicriskCalculator._categorize_risk`. -/
def categorize_risk (percentile : ℚ) : String :=
  if percentile < 10 then "Low"
  else if percentile < 25 then "Below average"
  else if percentile < 75 then "Average"
  else if percentile < 90 then "Above average"
  else "High"

/-- Embedding of the result `dict` built by `calculate_prs`.  The
`interpretation` text is presentation-only template filling
(`_interpret_prs`); its single numeric ingredient, the `"{percentile:.0f}"`
rounding, is modelled separately by `format_round`. -/
structure PRSResult where
  trait : String
  score : ℚ
  variants_found : ℕ
  variants_total : ℕ
  percentile : ℚ
  risk_category : String
  citations : List String
  description : String
  ancestry : String
  disclaimer : String
  deriving DecidableEq

/-- The scoring loop of `calculate_prs`: walk the model's
`(rsid, weight)` pairs accumulating `score` and `variants_found`.
`genotype[0]` on an empty genotype string raises `IndexError` in Python,
embedded as `Except.error`. -/
def prs_loop (user_snps : List (String × String)) :
    List (String × ℚ) → ℚ → ℕ → Except String (ℚ × ℕ)
  | [], score, found => Except.ok (score, found)
  | (rsid, weight) :: rest, score, found =>
    match dictLookup rsid user_snps with
    | none => prs_loop user_snps rest score found
    | some genotype =>
      match genotype.data with
      | [] => Except.error "IndexError: string index out of range"
      | c :: cs =>
        prs_loop user_snps rest (score + (List.count c (c :: cs) : ℚ) * weight) (found + 1)

/-- Embedding of `PolygenicriskCalculator.calculate_prs`.  Python's
`return None` on an unknown trait is `Except.ok none`; an uncaught
exception is `Except.error`. -/
def calculate_prs (user_snps : List (String × String)) (trait : String) :
    Except String (Option PRSResult) :=
  match dictLookup trait PRS_MODELS with
  | none => Except.ok none
  | some model =>
    match prs_loop user_snps model.variants 0 0 with
    | Except.error e => Except.error e
    | Except.ok (score, variants_found) =>
      let percentile := score_to_percentile score model.trait_name
      let risk_category := categorize_risk percentile
      Except.ok (some
        { trait := model.trait_name
          score := score
          variants_found := variants_found
          variants_total := model.variants.length
          percentile := percentile
          risk_category := risk_category
          citations := model.citations
          description := model.description
          ancestry := model.ancestry
          disclaimer := "PRS captures 20-50% of genetic risk. Environmental factors also important." })

/-- The iteration of `get_all_scores` over the model registry's keys. -/
def scores_loop (user_snps : List (String × String)) :
    List (String × PRSWeights) → Except String (List PRSResult)
  | [] => Except.ok []
  | (trait_key, _) :: rest =>
    match calculate_prs user_snps trait_key with
    | Except.error e => Except.error e
    | Except.ok none => scores_loop user_snps rest
    | Except.ok (some prs) =>
      match scores_loop user_snps rest with
      | Except.error e => Except.error e
      | Except.ok results => Except.ok (prs :: results)

/-- Embedding of `PolygenicriskCalculator.get_all_scores`. -/
def get_all_scores (user_snps : List (String × String)) : Except String (List PRSResult) :=
  scores_loop user_snps PRS_MODELS

/-- The comparison used to embed
`sorted(high_risk, key=lambda x: x["percentile"], reverse=True)`:
Python's stable sort with reversed comparisons is a stable merge sort
with this relation. -/
def percentile_desc (a b : PRSResult) : Bool :=
  decide (b.percentile ≤ a.percentile)

/-- Embedding of `PolygenicriskCalculator.get_high_risk_traits`
(the Python default for `threshold` is 75). -/
def get_high_risk_traits (user_snps : List (String × String)) (threshold : ℚ) :
    Except String (List PRSResult) :=
  match get_all_scores user_snps with
  | Except.error e => Except.error e
  | Except.ok all =>
    Except.ok (List.mergeSort
      (all.filter (fun prs => decide (threshold < prs.percentile))) percentile_desc)

/-- Python's `"%.0f"` formatting applied to an exact rational value:
round to the nearest integer, ties to even (CPython round-half-even). -/
def format_round (q : ℚ) : ℤ :=
  let f := ⌊q⌋
  let r := q - (f : ℚ)
  if r < 1/2 then f
  else if 1/2 < r then f + 1
  else if f % 2 = 0 then f else f + 1

/-- Embedding of one value of the `HEALTH_SNPS` table from `health_snps.py`. -/
structure HealthSNPInfo where
  gene : String
  trait : String
  alleles : List (String × String)
  description : String
  deriving DecidableEq

/-- Embedding of the `HEALTH_SNPS` reference table from `health_snps.py`,
in source (insertion) order. -/
def HEALTH_SNPS : List (String × HealthSNPInfo) :=
  [("rs10757274",
    { gene := "9p21.3", trait := "Cardiovascular disease risk"
      alleles := [("G", "risk"), ("A", "protective")]
      description := "Associated with increased risk of heart attack and stroke" }),
   ("rs1333049",
    { gene := "9p21.3", trait := "Cardiovascular disease"
      alleles := [("C", "risk"), ("G", "protective")]
      description := "Strongly associated with myocardial infarction" }),
   ("rs2383206",
    { gene := "ANRIL", trait := "Atherosclerosis"
      alleles := [("T", "risk"), ("C", "protective")]
      description := "Associated with atherosclerotic cardiovascular disease" }),
   ("rs429358",
    { gene := "APOE", trait := "Cholesterol & Alzheimer\x27s disease"
      alleles := [("C", "normal"), ("T", "risk")]
      description := "APOE4 variant associated with higher cholesterol and Alzheimer\x27s risk" }),
   ("rs7412",
    { gene := "APOE", trait := "Cholesterol & Alzheimer\x27s disease"
      alleles := [("C", "normal"), ("T", "protective")]
      description := "APOE2 variant, protective for Alzheimer\x27s" }),
   ("rs762551",
    { gene := "CYP1A2", trait := "Caffeine sensitivity"
      alleles := [("A", "fast metabolizer"), ("C", "slow metabolizer")]
      description := "Fast metabolizers (AA) clear caffeine quickly. Slow metabolizers (CC) retain caffeine longer" }),
   ("rs4988235",
    { gene := "MCM6", trait := "Lactose intolerance"
      alleles := [("C", "lactose tolerant"), ("T", "lactose intolerant")]
      description := "CC = lactose tolerant, CT = mostly tolerant, TT = lactose intolerant" }),
   ("rs2282679",
    { gene := "GC", trait := "Vitamin D metabolism"
      alleles := [("T", "higher vitamin D"), ("G", "lower vitamin D")]
      description := "Affects vitamin D binding protein and vitamin D levels" }),
   ("rs1045642",
    { gene := "MDR1/ABCB1", trait := "Drug metabolism"
      alleles := [("C", "normal"), ("T", "reduced drug transport")]
      description := "Affects absorption and transport of many medications" }),
   ("rs4149056",
    { gene := "SLCO1B1", trait := "Statin metabolism"
      alleles := [("C", "normal metabolism"), ("T", "reduced metabolism")]
      description := "TT carriers have reduced statin metabolism and increased side effect risk" }),
   ("rs11136000",
    { gene := "CLUSTERIN", trait := "Alzheimer\x27s disease"
      alleles := [("T", "increased risk"), ("C", "protective")]
      description := "Associated with increased Alzheimer\x27s disease risk" }),
   ("rs7903146",
    { gene := "TCF7L2", trait := "Type 2 diabetes"
      alleles := [("C", "lower risk"), ("T", "higher risk")]
      description := "TT genotype associated with 1.5x increased diabetes risk" }),
   ("rs1801282",
    { gene := "PPARG", trait := "Insulin sensitivity"
      alleles := [("C", "normal"), ("G", "improved insulin sensitivity")]
      description := "G allele associated with improved insulin sensitivity" }),
   ("rs1801018",
    { gene := "COL1A1", trait := "Bone mineral density"
      alleles := [("S", "higher density"), ("s", "lower density")]
      description := "Associated with bone mineral density" }),
   ("rs1815834",
    { gene := "ACTN3", trait := "Muscle fiber type"
      alleles := [("R", "power/speed"), ("X", "endurance")]
      description := "RR genotype associated with power and speed performance, XX with endurance" }),
   ("rs12913832",
    { gene := "HERC2", trait := "Eye color"
      alleles := [("A", "brown eyes"), ("G", "blue eyes")]
      description := "Strongly associated with eye color, GG = blue, AA/GA = brown" }),
   ("rs1042026",
    { gene := "ADH1B", trait := "Alcohol flush reaction"
      alleles := [("G", "normal"), ("A", "alcohol flush")]
      description := "A allele associated with alcohol flush reaction and reduced alcohol tolerance" }),
   ("rs11900115",
    { gene := "DEC2", trait := "Sleep duration"
      alleles := [("T", "normal sleep needs"), ("C", "may sleep less")]
      description := "Associated with natural short sleep duration" }),
   ("rs9939609",
    { gene := "FTO", trait := "Obesity risk"
      alleles := [("A", "lower obesity risk"), ("T", "higher obesity risk")]
      description := "TT genotype associated with ~1.5 kg higher BMI and increased obesity risk" }),
   ("rs6025",
    { gene := "F5", trait := "Blood clotting (Factor V Leiden)"
      alleles := [("G", "normal"), ("A", "increased clotting risk")]
      description := "A allele (Factor V Leiden) associated with increased blood clot risk" }),
   ("rs2165241",
    { gene := "SRBD1", trait := "Glaucoma"
      alleles := [("C", "lower risk"), ("T", "higher risk")]
      description := "Associated with primary open-angle glaucoma" }),
   ("rs6478241",
    { gene := "PRDM16", trait := "Migraine"
      alleles := [("A", "higher risk"), ("G", "protective")]
      description := "Associated with increased migraine susceptibility" })]

/-- Embedding of `get_health_snp` from `health_snps.py`
(`HEALTH_SNPS.get(rsid, None)`). -/
def get_health_snp (rsid : String) : Option HealthSNPInfo :=
  dictLookup rsid HEALTH_SNPS

/-- Embedding of one entry of the result `dict` built by
`VariantAnnotator.get_user_health_variants`. -/
structure AnnotatedVariant where
  rsid : String
  genotype : String
  gene : String
  trait : String
  description : String
  alleles : List (String × String)
  deriving DecidableEq

/-- The loop of `VariantAnnotator.get_user_health_variants`: iterate the
keys of `HEALTH_SNPS` (here an arbitrary `table` so that the theorems can
proceed by induction; the repository instantiates it with `HEALTH_SNPS`),
keep only those present in the user's genome map, and annotate each from
`get_health_snp`.  The `none` branch for `get_health_snp` is unreachable
when iterating the real table. -/
def match_loop (user_snps : List (String × String)) :
    List (String × HealthSNPInfo) → List (String × AnnotatedVariant)
  | [] => []
  | (health_rsid, _) :: rest =>
    match dictLookup health_rsid user_snps with
    | none => match_loop user_snps rest
    | some genotype =>
      match get_health_snp health_rsid with
      | none => match_loop user_snps rest
      | some health_info =>
        (health_rsid,
          { rsid := health_rsid
            genotype := genotype
            gene := health_info.gene
            trait := health_info.trait
            description := health_info.description
            alleles := health_info.alleles }) :: match_loop user_snps rest

/-- Embedding of `VariantAnnotator.get_user_health_variants`. -/
def get_user_health_variants (user_snps : List (String × String)) :
    List (String × AnnotatedVariant) :=
  match_loop user_snps HEALTH_SNPS

/-- Spec-side formula: number of characters of the genotype equal to its
first character (0 on the empty string, where the code instead raises). -/
def effect_allele_count (genotype : String) : ℕ :=
  match genotype.data with
  | [] => 0
  | c :: cs => List.count c (c :: cs)

/-- Is the weighted pair's identifier present in the genome map? -/
def variant_present (user_snps : List (String × String)) (p : String × ℚ) : Bool :=
  (dictLookup p.1 user_snps).isSome

/-- Spec-side contribution of one weighted pair:
`effectAlleleCount * weight` of the genotype found in the genome map. -/
def variant_term (user_snps : List (String × String)) (p : String × ℚ) : ℚ :=
  match dictLookup p.1 user_snps with
  | none => 0
  | some g => (effect_allele_count g : ℚ) * p.2

/-- Modelled from the spec's words for the percentile transform: the
per-trait scale factor, 10 for names containing "Coronary", 5 for names
containing "Alzheimer", 8 otherwise.  Compared against the source's
`score_to_percentile`. -/
def claim_scale_factor (trait_name : String) : ℚ :=
  if strContains trait_name "Coronary" then 10
  else if strContains trait_name "Alzheimer" then 5
  else 8

/-- The scoring loop computes exactly the spec's sum and counter, provided
every genotype found at a weighted identifier is non-empty. -/
theorem prs_loop_spec (user_snps : List (String × String)) :
    ∀ (l : List (String × ℚ)) (s : ℚ) (f : ℕ),
    (∀ rsid w g, (rsid, w) ∈ l → dictLookup rsid user_snps = some g → g ≠ "") →
    prs_loop user_snps l s f =
      Except.ok (s + ((l.filter (variant_present user_snps)).map (variant_term user_snps)).sum,
                 f + (l.filter (variant_present user_snps)).length) := by
  intro l
  induction l with
  | nil => intro s f _; simp [prs_loop]
  | cons p rest ih =>
    intro s f hne
    obtain ⟨rsid, w⟩ := p
    have hne2 : ∀ rsid2 w2 g, (rsid2, w2) ∈ rest → dictLookup rsid2 user_snps = some g → g ≠ "" :=
      fun rsid2 w2 g hmem hg => hne rsid2 w2 g (List.mem_cons_of_mem _ hmem) hg
    cases hu : dictLookup rsid user_snps with
    | none =>
      have hp : variant_present user_snps (rsid, w) = false := by
        simp [variant_present, hu]
      simp only [prs_loop, hu, List.filter_cons, hp, Bool.false_eq_true, if_false]
      exact ih s f hne2
    | some g =>
      have hgne : g ≠ "" := hne rsid w g (List.mem_cons_self _ _) hu
      cases hg : g.data with
      | nil =>
        exfalso
        apply hgne
        cases g with
        | mk d => simp at hg; simp [hg]
      | cons c cs =>
        have hp : variant_present user_snps (rsid, w) = true := by
          simp [variant_present, hu]
        have hterm : variant_term user_snps (rsid, w) = (List.count c (c :: cs) : ℚ) * w := by
          simp [variant_term, hu, effect_allele_count, hg]
        simp only [prs_loop, hu, hg, List.filter_cons, hp, if_true]
        rw [ih _ _ hne2]
        simp only [Except.ok.injEq, Prod.mk.injEq, List.map_cons, List.sum_cons,
          List.length_cons, hterm]
        constructor
        · ring
        · omega

/-- Closed form of `calculate_prs` on a registered trait whose matched
genotypes are all non-empty. -/
theorem calculate_prs_eq (user_snps : List (String × String)) (trait : String)
    (model : PRSWeights) (hm : dictLookup trait PRS_MODELS = some model)
    (hne : ∀ rsid w g, (rsid, w) ∈ model.variants → dictLookup rsid user_snps = some g → g ≠ "") :
    calculate_prs user_snps trait =
      Except.ok (some
        { trait := model.trait_name
          score := ((model.variants.filter (variant_present user_snps)).map
                      (variant_term user_snps)).sum
          variants_found := (model.variants.filter (variant_present user_snps)).length
          variants_total := model.variants.length
          percentile := score_to_percentile
            (((model.variants.filter (variant_present user_snps)).map
                (variant_term user_snps)).sum) model.trait_name
          risk_category := categorize_risk (score_to_percentile
            (((model.variants.filter (variant_present user_snps)).map
                (variant_term user_snps)).sum) model.trait_name)
          citations := model.citations
          description := model.description
          ancestry := model.ancestry
          disclaimer := "PRS captures 20-50% of genetic risk. Environmental factors also important." }) := by
  simp only [calculate_prs, hm, prs_loop_spec user_snps model.variants 0 0 hne]
  simp

/-- Inversion: any successful `calculate_prs` result came from a registered
model and the scoring loop, with the percentile, category and totals wired
as in the source. -/
theorem calculate_prs_ok_inv (user_snps : List (String × String)) (trait : String)
    (r : PRSResult) (h : calculate_prs user_snps trait = Except.ok (some r)) :
    ∃ model score found, dictLookup trait PRS_MODELS = some model ∧
      prs_loop user_snps model.variants 0 0 = Except.ok (score, found) ∧
      r.score = score ∧ r.variants_found = found ∧
      r.variants_total = model.variants.length ∧
      r.percentile = score_to_percentile score model.trait_name ∧
      r.risk_category = categorize_risk (score_to_percentile score model.trait_name) := by
  simp only [calculate_prs] at h
  split at h
  · simp at h
  · rename_i model hm
    split at h
    · simp at h
    · rename_i score found hp
      simp only [Except.ok.injEq, Option.some.injEq] at h
      subst h
      exact ⟨model, score, found, hm, hp, rfl, rfl, rfl, rfl, rfl⟩

/-- The loop's found-counter grows by at most the number of pairs walked. -/
theorem prs_loop_found_le (user_snps : List (String × String)) :
    ∀ (l : List (String × ℚ)) (s : ℚ) (f : ℕ) (s2 : ℚ) (f2 : ℕ),
    prs_loop user_snps l s f = Except.ok (s2, f2) → f2 ≤ f + l.length := by
  intro l
  induction l with
  | nil =>
    intro s f s2 f2 h
    simp [prs_loop] at h
    omega
  | cons p rest ih =>
    intro s f s2 f2 h
    obtain ⟨rsid, w⟩ := p
    simp only [prs_loop] at h
    split at h
    · have := ih s f s2 f2 h
      simp only [List.length_cons]
      omega
    · split at h
      · simp at h
      · have := ih _ _ _ _ h
        simp only [List.length_cons]
        omega

/-- The saturated transform always lands in `[1, 99]`. -/
theorem score_to_percentile_mem_Icc (s : ℚ) (name : String) :
    1 ≤ score_to_percentile s name ∧ score_to_percentile s name ≤ 99 := by
  unfold score_to_percentile
  split_ifs <;>
    exact ⟨le_min (by norm_num) (le_max_left 1 _), min_le_left 99 _⟩

/-- A zero score maps to the 50th percentile for every trait name. -/
theorem score_to_percentile_zero (name : String) : score_to_percentile 0 name = 50 := by
  unfold score_to_percentile
  split_ifs <;> norm_num

/-- The 50th percentile is categorised as "Average". -/
theorem categorize_risk_fifty : categorize_risk 50 = "Average" := by
  unfold categorize_risk
  norm_num

/-- A key is found by `dictLookup` exactly when it is among the keys. -/
theorem dictLookup_isSome_iff_mem_keys {β : Type} (k : String) (l : List (String × β)) :
    (dictLookup k l).isSome = true ↔ k ∈ l.map Prod.fst := by
  induction l with
  | nil => simp [dictLookup]
  | cons p rest ih =>
    by_cases h : p.1 = k
    · simp [dictLookup, h]
    · simp only [dictLookup, h, if_false, List.map_cons, List.mem_cons, ih]
      constructor
      · exact Or.inr
      · rintro (hk | hk)
        · exact absurd hk.symm h
        · exact hk

/-- A pair in the list witnesses that its key is found. -/
theorem dictLookup_isSome_of_mem {β : Type} (k : String) (v : β) (l : List (String × β))
    (h : (k, v) ∈ l) : (dictLookup k l).isSome = true := by
  rw [dictLookup_isSome_iff_mem_keys]
  exact List.mem_map_of_mem Prod.fst h

/-- Membership of the matcher's result: a key is matched exactly when it
is a key of both the genome map and the iterated table. -/
theorem match_loop_lookup_isSome (user_snps : List (String × String)) :
    ∀ (table : List (String × HealthSNPInfo)),
    (∀ p ∈ table, get_health_snp p.1 = some p.2) →
    ∀ k, (dictLookup k (match_loop user_snps table)).isSome = true ↔
      ((dictLookup k user_snps).isSome = true ∧ (dictLookup k table).isSome = true) := by
  intro table
  induction table with
  | nil => intro _ k; simp [match_loop, dictLookup]
  | cons p rest ih =>
    intro htable k
    obtain ⟨rsid, info⟩ := p
    have hr : get_health_snp rsid = some info := htable _ (List.mem_cons_self _ _)
    have ih2 := ih (fun q hq => htable q (List.mem_cons_of_mem _ hq))
    by_cases hk : rsid = k
    · subst hk
      cases hu : dictLookup rsid user_snps with
      | none => simp [match_loop, hu, dictLookup, ih2, hu]
      | some g => simp [match_loop, hu, hr, dictLookup]
    · cases hu : dictLookup rsid user_snps with
      | none => simp [match_loop, hu, dictLookup, hk, ih2]
      | some g => simp [match_loop, hu, hr, dictLookup, hk, ih2]

/-- Each matched entry carries the user's genotype and the reference
table's gene, trait, description and allele maps. -/
theorem match_loop_lookup_eq_some (user_snps : List (String × String)) :
    ∀ (table : List (String × HealthSNPInfo)),
    (∀ p ∈ table, get_health_snp p.1 = some p.2) →
    ∀ k entry, dictLookup k (match_loop user_snps table) = some entry →
      dictLookup k user_snps = some entry.genotype ∧ entry.rsid = k ∧
      ∃ info, get_health_snp k = some info ∧ entry.gene = info.gene ∧
        entry.trait = info.trait ∧ entry.description = info.description ∧
        entry.alleles = info.alleles := by
  intro table
  induction table with
  | nil => intro _ k entry h; simp [match_loop, dictLookup] at h
  | cons p rest ih =>
    intro htable k entry h
    obtain ⟨rsid, info⟩ := p
    have hr : get_health_snp rsid = some info := htable _ (List.mem_cons_self _ _)
    have ih2 := ih (fun q hq => htable q (List.mem_cons_of_mem _ hq))
    cases hu : dictLookup rsid user_snps with
    | none =>
      rw [match_loop, hu] at h
      exact ih2 k entry h
    | some g =>
      rw [match_loop, hu, hr] at h
      by_cases hk : rsid = k
      · subst hk
        rw [dictLookup, if_pos rfl] at h
        simp only [Option.some.injEq] at h
        subst h
        exact ⟨hu, rfl, info, hr, rfl, rfl, rfl, rfl⟩
      · rw [dictLookup] at h
        simp only [hk, if_false] at h
        exact ih2 k entry h

/-- The matched keys form a sublist of the table's keys. -/
theorem match_loop_keys_sublist (user_snps : List (String × String)) :
    ∀ (table : List (String × HealthSNPInfo)),
    ((match_loop user_snps table).map Prod.fst).Sublist (table.map Prod.fst) := by
  intro table
  induction table with
  | nil => simp [match_loop]
  | cons p rest ih =>
    obtain ⟨rsid, info⟩ := p
    cases hu : dictLookup rsid user_snps with
    | none =>
      rw [match_loop, hu]
      exact List.Sublist.cons _ ih
    | some g =>
      rw [match_loop, hu]
      cases hr : get_health_snp rsid with
      | none => exact List.Sublist.cons _ ih
      | some info2 => exact List.Sublist.cons₂ _ ih

/-- Every matched key is a key of the genome map. -/
theorem match_loop_keys_mem_user (user_snps : List (String × String)) :
    ∀ (table : List (String × HealthSNPInfo)) (k : String),
    k ∈ (match_loop user_snps table).map Prod.fst →
    (dictLookup k user_snps).isSome = true := by
  intro table
  induction table with
  | nil => intro k hk; simp [match_loop] at hk
  | cons p rest ih =>
    intro k hk
    obtain ⟨rsid, info⟩ := p
    cases hu : dictLookup rsid user_snps with
    | none =>
      rw [match_loop, hu] at hk
      exact ih k hk
    | some g =>
      rw [match_loop, hu] at hk
      cases hr : get_health_snp rsid with
      | none => rw [hr] at hk; exact ih k hk
      | some info2 =>
        rw [hr] at hk
        simp only [List.map_cons, List.mem_cons] at hk
        cases hk with
        | inl hk => subst hk; simp [hu]
        | inr hk => exact ih k hk

/-- The reference table annotates each of its own keys with its own entry
(its keys are pairwise distinct). -/
theorem health_snps_self_lookup : ∀ p ∈ HEALTH_SNPS, get_health_snp p.1 = some p.2 := by
  with_unfolding_all decide

/-- Every result of `scores_loop` is the output of `calculate_prs` on a
key of the iterated registry. -/
theorem scores_loop_mem (user_snps : List (String × String)) :
    ∀ (L : List (String × PRSWeights)) (res : List PRSResult),
    scores_loop user_snps L = Except.ok res →
    ∀ r ∈ res, ∃ key m, (key, m) ∈ L ∧ calculate_prs user_snps key = Except.ok (some r) := by
  intro L
  induction L with
  | nil =>
    intro res h r hr
    simp only [scores_loop, Except.ok.injEq] at h
    subst h
    simp at hr
  | cons p rest ih =>
    intro res h r hr
    obtain ⟨key, m⟩ := p
    simp only [scores_loop] at h
    split at h
    · simp at h
    · rename_i hcal
      have ⟨key2, m2, hmem, hc⟩ := ih res h r hr
      exact ⟨key2, m2, List.mem_cons_of_mem _ hmem, hc⟩
    · rename_i prs hcal
      split at h
      · simp at h
      · rename_i results hrest
        simp only [Except.ok.injEq] at h
        subst h
        cases hr with
        | head => exact ⟨key, m, List.mem_cons_self _ _, hcal⟩
        | tail _ hr =>
          have ⟨key2, m2, hmem, hc⟩ := ih results hrest r hr
          exact ⟨key2, m2, List.mem_cons_of_mem _ hmem, hc⟩

/-- On the empty genome map every registered model scores 0, lands at the
50th percentile and is categorised "Average". -/
theorem calculate_prs_empty_genome (trait : String) (model : PRSWeights)
    (hm : dictLookup trait PRS_MODELS = some model) :
    calculate_prs [] trait = Except.ok (some
      { trait := model.trait_name
        score := 0
        variants_found := 0
        variants_total := model.variants.length
        percentile := 50
        risk_category := "Average"
        citations := model.citations
        description := model.description
        ancestry := model.ancestry
        disclaimer := "PRS captures 20-50% of genetic risk. Environmental factors also important." }) := by
  have hne : ∀ rsid w g, (rsid, w) ∈ model.variants →
      dictLookup rsid ([] : List (String × String)) = some g → g ≠ "" := by
    intro rsid w g _ hg
    simp [dictLookup] at hg
  have hfil : model.variants.filter (variant_present []) = [] := by
    rw [List.filter_eq_nil_iff]
    intro p _
    simp [variant_present, dictLookup]
  rw [calculate_prs_eq [] trait model hm hne]
  simp [hfil, score_to_percentile_zero, categorize_risk_fifty]

/-- C1: for every genome map and registered trait, the PRS score is the sum
of `effectAlleleCount * weight` over exactly the weighted pairs whose
identifier is present in the genome map, and absent pairs are excluded from
the `variantsFound` counter.  (Stated under the non-empty-genotype
hypothesis that makes the computation complete; see C10.) -/
theorem calculate_prs_score_spec (user_snps : List (String × String)) (trait : String)
    (model : PRSWeights) (hm : dictLookup trait PRS_MODELS = some model)
    (hne : ∀ rsid w g, (rsid, w) ∈ model.variants → dictLookup rsid user_snps = some g → g ≠ "") :
    ∃ r : PRSResult, calculate_prs user_snps trait = Except.ok (some r) ∧
      r.score = ((model.variants.filter (variant_present user_snps)).map
        (variant_term user_snps)).sum ∧
      r.variants_found = (model.variants.filter (variant_present user_snps)).length :=
  ⟨_, calculate_prs_eq user_snps trait model hm hne, rfl, rfl⟩

/-- Witness for C1 at the empty genome map and the diabetes model. -/
theorem calculate_prs_score_spec_witness :
    ∃ r : PRSResult, calculate_prs [] "type_2_diabetes" = Except.ok (some r) ∧
      r.score = ((type_2_diabetes_model.variants.filter (variant_present [])).map
        (variant_term [])).sum ∧
      r.variants_found = (type_2_diabetes_model.variants.filter (variant_present [])).length :=
  calculate_prs_score_spec [] "type_2_diabetes" type_2_diabetes_model
    (by with_unfolding_all rfl)
    (fun rsid w g _ hg => by simp [dictLookup] at hg)

/-- C2: the percentile transform is the clamp
`min 99 (max 1 (50 + score * scaleFactor))` with scale factor 10 for trait
names containing "Coronary", 5 for names containing "Alzheimer" and 8
otherwise, and every successful result's percentile lies in `[1, 99]`. -/
theorem score_to_percentile_clamp_spec :
    (∀ (s : ℚ) (name : String),
      score_to_percentile s name = min 99 (max 1 (50 + s * claim_scale_factor name)))
    ∧ (∀ (user_snps : List (String × String)) (trait : String) (r : PRSResult),
        calculate_prs user_snps trait = Except.ok (some r) →
        1 ≤ r.percentile ∧ r.percentile ≤ 99) := by
  constructor
  · intro s name
    unfold score_to_percentile claim_scale_factor
    by_cases h1 : strContains name "Coronary" <;>
      by_cases h2 : strContains name "Alzheimer" <;>
      simp [h1, h2]
  · intro user_snps trait r h
    obtain ⟨model, score, found, -, -, -, -, -, hperc, -⟩ :=
      calculate_prs_ok_inv user_snps trait r h
    rw [hperc]
    exact score_to_percentile_mem_Icc score model.trait_name

/-- The result of scoring an empty genome map against the diabetes model,
written out in full. -/
def prs_empty_t2d : PRSResult :=
  { trait := "Type 2 Diabetes"
    score := 0
    variants_found := 0
    variants_total := 5
    percentile := 50
    risk_category := "Average"
    citations := ["16882006", "22885925", "25231870"]
    description := "Genetic susceptibility to Type 2 Diabetes Mellitus"
    ancestry := "European"
    disclaimer := "PRS captures 20-50% of genetic risk. Environmental factors also important." }

/-- Witness for C2 at a concrete successful result. -/
theorem score_to_percentile_clamp_spec_witness :
    1 ≤ prs_empty_t2d.percentile ∧ prs_empty_t2d.percentile ≤ 99 :=
  score_to_percentile_clamp_spec.2 [] "type_2_diabetes" prs_empty_t2d
    (by with_unfolding_all rfl)

/-- C3: the risk category is determined by the fixed percentile thresholds
10, 25, 75, 90 (the spec's Low / BelowAverage / Average / AboveAverage /
High render as the source strings "Low" / "Below average" / "Average" /
"Above average" / "High"), and every successful result's category is the
categorisation of its own percentile. -/
theorem categorize_risk_thresholds_spec :
    (∀ p : ℚ,
      (p < 10 → categorize_risk p = "Low") ∧
      (10 ≤ p → p < 25 → categorize_risk p = "Below average") ∧
      (25 ≤ p → p < 75 → categorize_risk p = "Average") ∧
      (75 ≤ p → p < 90 → categorize_risk p = "Above average") ∧
      (90 ≤ p → categorize_risk p = "High"))
    ∧ (∀ (user_snps : List (String × String)) (trait : String) (r : PRSResult),
        calculate_prs user_snps trait = Except.ok (some r) →
        r.risk_category = categorize_risk r.percentile) := by
  constructor
  · intro p
    refine ⟨?_, ?_, ?_, ?_, ?_⟩ <;> intros <;> unfold categorize_risk <;> split_ifs <;>
      first | rfl | linarith
  · intro user_snps trait r h
    obtain ⟨model, score, found, -, -, -, -, -, hperc, hcat⟩ :=
      calculate_prs_ok_inv user_snps trait r h
    rw [hcat, hperc]

/-- Witness for C3 at a concrete percentile in each style: 5 is Low. -/
theorem categorize_risk_thresholds_spec_witness : categorize_risk 5 = "Low" :=
  (categorize_risk_thresholds_spec.1 5).1 (by norm_num)

/-- C5: the end-to-end diabetes scenario.  On the genome map
`{"rs7903146": "CT", "rs1801282": "CC"}` the `type_2_diabetes` model finds
2 variants, scores `1*0.12 + 2*(-0.08) = -0.04`, maps it to percentile
`clamp(50 - 0.32, 1, 99) = 49.68`, reported as 50 by the `"%.0f"` rounding
of the interpretation text, and categorises it "Average". -/
theorem prs_end_to_end_t2d :
    calculate_prs [("rs7903146", "CT"), ("rs1801282", "CC")] "type_2_diabetes" =
      Except.ok (some
        { trait := "Type 2 Diabetes"
          score := -0.04
          variants_found := 2
          variants_total := 5
          percentile := 49.68
          risk_category := "Average"
          citations := ["16882006", "22885925", "25231870"]
          description := "Genetic susceptibility to Type 2 Diabetes Mellitus"
          ancestry := "European"
          disclaimer := "PRS captures 20-50% of genetic risk. Environmental factors also important." })
    ∧ (1 * 0.12 + 2 * (-0.08) : ℚ) = -0.04
    ∧ min 99 (max 1 (50 + (-0.04) * 8)) = (49.68 : ℚ)
    ∧ format_round 49.68 = 50 :=
  ⟨by with_unfolding_all rfl, by norm_num, by norm_num, by with_unfolding_all decide⟩

/-- Counterexample for C6 as stated: an empty genotype string at a weighted
identifier makes `calculate_prs` raise `IndexError` rather than return a
result object. -/
theorem calculate_prs_empty_genotype_error :
    calculate_prs [("rs7903146", "")] "type_2_diabetes" =
      Except.error "IndexError: string index out of range" := by
  with_unfolding_all rfl

/-- C6 (amended): scoring never fails on genome maps whose genotype strings
at the model's weighted identifiers are non-empty — missing variants only
degrade coverage — and the empty genome map yields `variantsFound = 0`,
`score = 0`, `percentile = 50`, `riskCategory = Average` for every
registered model. -/
theorem calculate_prs_no_failure_amended :
    (∀ (user_snps : List (String × String)) (trait : String) (model : PRSWeights),
      dictLookup trait PRS_MODELS = some model →
      (∀ rsid w g, (rsid, w) ∈ model.variants → dictLookup rsid user_snps = some g → g ≠ "") →
      ∃ r : PRSResult, calculate_prs user_snps trait = Except.ok (some r))
    ∧ (∀ (trait : String) (model : PRSWeights), dictLookup trait PRS_MODELS = some model →
      ∃ r : PRSResult, calculate_prs [] trait = Except.ok (some r) ∧
        r.variants_found = 0 ∧ r.score = 0 ∧ r.percentile = 50 ∧
        r.risk_category = "Average") := by
  constructor
  · intro user_snps trait model hm hne
    exact ⟨_, calculate_prs_eq user_snps trait model hm hne⟩
  · intro trait model hm
    exact ⟨_, calculate_prs_empty_genome trait model hm, rfl, rfl, rfl, rfl⟩

/-- Witness for C6 (amended) at the obesity model. -/
theorem calculate_prs_no_failure_amended_witness :
    ∃ r : PRSResult, calculate_prs [] "obesity" = Except.ok (some r) ∧
      r.variants_found = 0 ∧ r.score = 0 ∧ r.percentile = 50 ∧
      r.risk_category = "Average" :=
  calculate_prs_no_failure_amended.2 "obesity" obesity_model (by with_unfolding_all rfl)

/-- C7: an unregistered trait key yields the explicit not-found result
(Python `None`, embedded `Except.ok none`) and raises nothing. -/
theorem calculate_prs_unknown_trait_spec (user_snps : List (String × String)) (trait : String)
    (h : dictLookup trait PRS_MODELS = none) :
    calculate_prs user_snps trait = Except.ok none := by
  unfold calculate_prs
  rw [h]

/-- Witness for C7 at a key that is not registered. -/
theorem calculate_prs_unknown_trait_spec_witness :
    calculate_prs [("rs7903146", "CT")] "height" = Except.ok none :=
  calculate_prs_unknown_trait_spec [("rs7903146", "CT")] "height" (by with_unfolding_all rfl)


/-- The reference table's keys are pairwise distinct. -/
theorem health_snps_keys_nodup : (HEALTH_SNPS.map Prod.fst).Nodup := by
  with_unfolding_all decide

/-- C4: the matcher is a pure join.  The result contains an identifier
exactly when it is a key of both the genome map and the reference table,
its size is at most `min |genome| |reference|`, and each matched entry
carries the user's genotype together with the reference entry's gene,
trait, description and allele maps. -/
theorem get_user_health_variants_spec (user_snps : List (String × String)) :
    (∀ k : String, (dictLookup k (get_user_health_variants user_snps)).isSome = true ↔
       ((dictLookup k user_snps).isSome = true ∧ (dictLookup k HEALTH_SNPS).isSome = true))
    ∧ (get_user_health_variants user_snps).length ≤ min user_snps.length HEALTH_SNPS.length
    ∧ (∀ (k : String) (entry : AnnotatedVariant),
        dictLookup k (get_user_health_variants user_snps) = some entry →
        dictLookup k user_snps = some entry.genotype ∧
        ∃ info, dictLookup k HEALTH_SNPS = some info ∧ entry.gene = info.gene ∧
          entry.trait = info.trait ∧ entry.description = info.description ∧
          entry.alleles = info.alleles) := by
  refine ⟨?_, ?_, ?_⟩
  · intro k
    exact match_loop_lookup_isSome user_snps HEALTH_SNPS health_snps_self_lookup k
  · have hsub := match_loop_keys_sublist user_snps HEALTH_SNPS
    have hnodup : ((match_loop user_snps HEALTH_SNPS).map Prod.fst).Nodup :=
      hsub.nodup health_snps_keys_nodup
    have hsubset : ((match_loop user_snps HEALTH_SNPS).map Prod.fst) ⊆ user_snps.map Prod.fst := by
      intro k hk
      exact (dictLookup_isSome_iff_mem_keys k user_snps).mp
        (match_loop_keys_mem_user user_snps HEALTH_SNPS k hk)
    have h1 := (hnodup.subperm hsubset).length_le
    have h2 := hsub.length_le
    simp only [List.length_map] at h1 h2
    exact le_min h1 h2
  · intro k entry h
    obtain ⟨hg, -, info, hinfo, e1, e2, e3, e4⟩ :=
      match_loop_lookup_eq_some user_snps HEALTH_SNPS health_snps_self_lookup k entry h
    exact ⟨hg, info, hinfo, e1, e2, e3, e4⟩

/-- A concrete genome map holding one tracked identifier (rs429358) and one
untracked identifier. -/
def apoe_demo_genome : List (String × String) :=
  [("rs429358", "CT"), ("rs1111111", "AA")]

/-- The entry the matcher builds for rs429358 from `apoe_demo_genome`. -/
def apoe_demo_entry : AnnotatedVariant :=
  { rsid := "rs429358"
    genotype := "CT"
    gene := "APOE"
    trait := "Cholesterol & Alzheimer\x27s disease"
    description := "APOE4 variant associated with higher cholesterol and Alzheimer\x27s risk"
    alleles := [("C", "normal"), ("T", "risk")] }

/-- Witness for C4 at a concrete genome map and matched entry. -/
theorem get_user_health_variants_spec_witness :
    dictLookup "rs429358" apoe_demo_genome = some apoe_demo_entry.genotype ∧
    ∃ info, dictLookup "rs429358" HEALTH_SNPS = some info ∧
      apoe_demo_entry.gene = info.gene ∧ apoe_demo_entry.trait = info.trait ∧
      apoe_demo_entry.description = info.description ∧
      apoe_demo_entry.alleles = info.alleles :=
  (get_user_health_variants_spec apoe_demo_genome).2.2 "rs429358" apoe_demo_entry
    (by with_unfolding_all rfl)

/-- C8: coverage counters satisfy `variantsFound ≤ variantsTotal`, with
`variantsTotal` the number of weighted variants in the model, and a result
object is returned even at zero coverage. -/
theorem coverage_counters_spec :
    (∀ (user_snps : List (String × String)) (trait : String) (r : PRSResult),
      calculate_prs user_snps trait = Except.ok (some r) →
      r.variants_found ≤ r.variants_total ∧
      (∀ model, dictLookup trait PRS_MODELS = some model →
        r.variants_total = model.variants.length))
    ∧ (∀ (trait : String) (model : PRSWeights), dictLookup trait PRS_MODELS = some model →
      ∃ r : PRSResult, calculate_prs [] trait = Except.ok (some r) ∧
        r.variants_found = 0) := by
  constructor
  · intro user_snps trait r h
    obtain ⟨model, score, found, hm, hp, -, hfound, htotal, -, -⟩ :=
      calculate_prs_ok_inv user_snps trait r h
    constructor
    · rw [hfound, htotal]
      have := prs_loop_found_le user_snps model.variants 0 0 score found hp
      omega
    · intro model2 hm2
      rw [hm] at hm2
      injection hm2 with hm2
      subst hm2
      exact htotal
  · intro trait model hm
    exact ⟨_, calculate_prs_empty_genome trait model hm, rfl⟩

/-- Witness for C8 at the breast-cancer model and the empty genome map. -/
theorem coverage_counters_spec_witness :
    ∃ r : PRSResult, calculate_prs [] "breast_cancer" = Except.ok (some r) ∧
      r.variants_found = 0 :=
  coverage_counters_spec.2 "breast_cancer" breast_cancer_model (by with_unfolding_all rfl)

/-- C9: the elevated-risk batch operation returns exactly the per-trait
results whose percentile exceeds the threshold, sorted descending by
percentile, and each returned element is the corresponding single-trait
result of `calculate_prs` on a registered model key. -/
theorem get_high_risk_traits_spec (user_snps : List (String × String)) (threshold : ℚ)
    (all l : List PRSResult)
    (hall : get_all_scores user_snps = Except.ok all)
    (hl : get_high_risk_traits user_snps threshold = Except.ok l) :
    l.Perm (all.filter (fun r => decide (threshold < r.percentile)))
    ∧ l.Pairwise (fun a b => b.percentile ≤ a.percentile)
    ∧ (∀ r ∈ l, ∃ key m, (key, m) ∈ PRS_MODELS ∧
        calculate_prs user_snps key = Except.ok (some r)) := by
  have hl2 : l = List.mergeSort
      (all.filter (fun r => decide (threshold < r.percentile))) percentile_desc := by
    simp only [get_high_risk_traits, hall, Except.ok.injEq] at hl
    exact hl.symm
  subst hl2
  refine ⟨List.mergeSort_perm _ _, ?_, ?_⟩
  · have htrans : ∀ a b c : PRSResult, percentile_desc a b = true →
        percentile_desc b c = true → percentile_desc a c = true := by
      intro a b c hab hbc
      simp only [percentile_desc, decide_eq_true_eq] at hab hbc ⊢
      exact le_trans hbc hab
    have htotal : ∀ a b : PRSResult, (percentile_desc a b || percentile_desc b a) = true := by
      intro a b
      simp only [percentile_desc, Bool.or_eq_true, decide_eq_true_eq]
      exact le_total b.percentile a.percentile
    have hs := @List.sorted_mergeSort PRSResult percentile_desc htrans htotal
      (all.filter (fun r => decide (threshold < r.percentile)))
    exact hs.imp (fun h => by
      simpa [percentile_desc, decide_eq_true_eq] using h)
  · intro r hr
    have hr2 : r ∈ all :=
      List.mem_of_mem_filter ((List.mergeSort_perm _ percentile_desc).mem_iff.mp hr)
    exact scores_loop_mem user_snps PRS_MODELS all hall r hr2

/-- The batch output for the empty genome map. -/
def empty_all_scores : List PRSResult :=
  ((get_all_scores []).toOption).getD []

/-- Witness for C9 at the empty genome map and the default threshold 75
(no trait exceeds it, so the elevated-risk list is empty). -/
theorem get_high_risk_traits_spec_witness :
    ([] : List PRSResult).Perm
      (empty_all_scores.filter (fun r => decide ((75 : ℚ) < r.percentile)))
    ∧ ([] : List PRSResult).Pairwise (fun a b => b.percentile ≤ a.percentile)
    ∧ (∀ r ∈ ([] : List PRSResult), ∃ key m, (key, m) ∈ PRS_MODELS ∧
        calculate_prs [] key = Except.ok (some r)) :=
  get_high_risk_traits_spec [] 75 empty_all_scores []
    (by with_unfolding_all rfl) (by with_unfolding_all rfl)

/-- C10: on genome maps whose genotype strings under the model's weighted
identifiers are non-empty, `calculate_prs` terminates normally with a
result object; the hypothesis excludes exactly the empty-genotype indexing
failure of `genotype[0]`. -/
theorem calculate_prs_total_on_nonempty (user_snps : List (String × String)) (trait : String)
    (model : PRSWeights) (hm : dictLookup trait PRS_MODELS = some model)
    (hne : ∀ rsid w g, (rsid, w) ∈ model.variants → dictLookup rsid user_snps = some g → g ≠ "") :
    ∃ r : PRSResult, calculate_prs user_snps trait = Except.ok (some r) :=
  ⟨_, calculate_prs_eq user_snps trait model hm hne⟩

/-- Witness for C10 at a genome map carrying a non-empty genotype at a
weighted identifier of the Alzheimer model. -/
theorem calculate_prs_total_on_nonempty_witness :
    ∃ r : PRSResult, calculate_prs [("rs429358", "TT")] "alzheimers_disease" =
      Except.ok (some r) :=
  calculate_prs_total_on_nonempty [("rs429358", "TT")] "alzheimers_disease"
    alzheimers_disease_model (by with_unfolding_all rfl)
    (by
      intro rsid w g hmem hg
      have hgval : "TT" = g := by
        by_cases h : "rs429358" = rsid
        · simpa [dictLookup, h] using hg
        · simp [dictLookup, h] at hg
      subst hgval
      decide)
